import Mathlib

/-!
Shallow embedding of the CVMailer job-application scripts
(`scripts/__main__.py`, `scripts/processor.py`, `scripts/email_utils.py`,
`scripts/forms.py`, `scripts/companies.py`, `scripts/logger.py`,
and the monolithic variant `scripts/auto_apply_script.py`).

Pure computations are translated directly; external effects (SMTP send,
Playwright page interaction, the filesystem, the clock) are passed in as
explicit oracle values, and each function returns the list of log rows it
appends together with counters for the side-effecting calls it makes.
-/

namespace CVMailer

/-! ## Python-semantics helpers -/

/-- Truthiness of a Python `Optional[str]`: `None` and `""` are falsy. -/
def pyTruthyOpt : Option String → Bool
  | none => false
  | some s => !s.isEmpty

/-- The string a Python `Optional[str]` contributes when written to a CSV row
(`None` is written as the empty field). -/
def optStr : Option String → String
  | none => ""
  | some s => s

/-- Python `x or d` on an `Optional[str]` `x`: the default is used when `x`
is `None` or empty. -/
def pyOrStr (o : Option String) (d : String) : String :=
  match o with
  | none => d
  | some s => if s.isEmpty then d else s

/-- Truthiness of a Python `Optional[int]`: `None` and `0` are falsy. -/
def pyIntTruthy : Option Int → Bool
  | none => false
  | some n => n != 0

/-- Python list slicing `xs[:n]` for an arbitrary integer bound `n`
(a negative bound counts from the end; `Int.toNat` clamps at zero). -/
def pySliceTo (n : Int) (xs : List α) : List α :=
  if 0 ≤ n then xs.take n.toNat else xs.take ((xs.length : Int) + n).toNat

/-- Lower-casing of one character as Python `str.lower` does on the ASCII and
Latin-1 ranges (which cover every character this program compares). -/
def pyLowerChar (c : Char) : Char :=
  if 65 ≤ c.toNat && c.toNat ≤ 90 then Char.ofNat (c.toNat + 32)
  else if 192 ≤ c.toNat && c.toNat ≤ 222 && c.toNat != 215 then Char.ofNat (c.toNat + 32)
  else c

/-- Python `s.lower()` restricted to the ASCII/Latin-1 alphabet. -/
def pyLower (s : String) : String :=
  String.mk (s.data.map pyLowerChar)

/-- Python substring test `pat in hay` (for a non-empty pattern):
`splitOn` yields more than one piece exactly when the pattern occurs. -/
def strContains (hay pat : String) : Bool :=
  (hay.splitOn pat).length > 1

/-- Python `template.format(**subs)` for the plain `\x7bname\x7d`
placeholders this program uses: each listed placeholder is replaced by its
value. -/
def pyFormat (template : String) (subs : List (String × String)) : String :=
  subs.foldl (fun acc kv => acc.replace ("\x7b" ++ kv.1 ++ "\x7d") kv.2) template

/-- Embedding of `pathlib.Path(p).name`: the final path component. -/
def pathName (p : String) : String :=
  match (p.splitOn "/").reverse with
  | [] => p
  | x :: _ => x

/-- Embedding of `pathlib.Path(p).suffix`: the extension of the final component, empty
unless the rightmost dot is neither the first nor the last character. -/
def pathSuffix (p : String) : String :=
  let cs := (pathName p).data
  let rev := cs.reverse
  match rev.findIdx? (fun c => c == '.') with
  | none => ""
  | some j =>
    if 0 < cs.length - 1 - j ∧ 0 < j then String.mk ((rev.take (j + 1)).reverse) else ""

/-- Python `s.startswith(pre)`, as a structurally recursive prefix test on
the character lists. -/
def pyStartsWith (s pre : String) : Bool :=
  pre.data.isPrefixOf s.data

/-- How a Python `bool` renders inside an f-string. -/
def pyBool : Bool → String
  | true => "True"
  | false => "False"

/-! ## Data model (`scripts/companies.py`, `scripts/config_loader.py`,
`scripts/logger.py`) -/

/-- One row of `companies.csv` (`Company` dataclass in
`scripts/companies.py`); empty cells are coerced to `None` by
`read_companies`, so the optional fields are `Option String`. -/
structure Company where
  company : String
  contact_email : Option String
  apply_url : Option String
  contact_name : Option String
  intro_note : Option String
deriving Repr, DecidableEq

/-- One row appended to the activity log by `append_log`
(`scripts/logger.py`). -/
structure LogEntry where
  timestamp : String
  company : String
  channel : String
  target : String
  status : String
  details : String
deriving Repr, DecidableEq

/-- The `identity` section of the configuration; the URL fields already
carry the `dict.get(k, "")` default applied at their use sites. -/
structure Identity where
  first_name : String
  last_name : String
  email : String
  phone : String
  portfolio_url : String
  linkedin_url : String
deriving Repr, DecidableEq

/-- The `email` section of the configuration, restricted to the keys
`build_email` reads; `subject` and `from_name` are optional because the code
reads them with `dict.get`. -/
structure EmailConfig where
  username : String
  from_name : Option String
  subject : Option String
  body_template : String
  attachments : List String
deriving Repr, DecidableEq

/-- The `forms.selectors` mapping: one ordered selector list per logical
field, as read by `fill_form_and_submit`. -/
structure FormSelectors where
  name : List String
  email : List String
  phone : List String
  message : List String
  cv_upload : List String
  letter_upload : List String
  flyer_upload : List String
  submit : List String
deriving Repr, DecidableEq

/-- The `forms` section of the configuration. -/
structure FormsConfig where
  enabled : Bool
  message_template : String
  selectors : FormSelectors
deriving Repr, DecidableEq

/-- The whole configuration document, restricted to the keys the processing
path reads.  `files` models the `files` mapping via `dict.get(key, "")`. -/
structure Config where
  identity : Identity
  files : String → String
  email : EmailConfig
  forms : FormsConfig
  logging_output_csv : String

/-- The ambient world an invocation runs in: file contents by path (`none`
means the path does not exist), plus the random stream and the clock, which
`build_email` must not consult. -/
structure World where
  fs : String → Option String
  rand : Nat → Nat
  now : String

/-! ## Email Dispatcher (`scripts/email_utils.py`) -/

/-- One attachment added by `EmailMessage.add_attachment`. -/
structure Attachment where
  filename : String
  maintype : String
  subtype : String
  data : String
deriving Repr, DecidableEq

/-- The `EmailMessage` that `build_email` assembles. -/
structure EmailMessage where
  fromHeader : String
  toAddr : String
  subject : String
  body : String
  attachments : List Attachment
deriving Repr, DecidableEq

/-- The attachment loop of `build_email`: for each configured key, look the
path up in `files`, warn and skip when the file is missing, otherwise attach
the bytes with subtype `pdf` for a `.pdf` suffix and `octet-stream`
otherwise.  Returns the attachments and the warnings, each in order. -/
def buildAttachments (cfg : Config) (fs : String → Option String) :
    List String → List Attachment × List String
  | [] => ([], [])
  | key :: rest =>
    let fpath := cfg.files key
    match fs fpath with
    | none =>
      let r := buildAttachments cfg fs rest
      (r.1, ("[!] Attachment missing: " ++ fpath) :: r.2)
    | some data =>
      let sub := if pyLower (pathSuffix fpath) == ".pdf" then "pdf" else "octet-stream"
      let r := buildAttachments cfg fs rest
      (⟨pathName fpath, "application", sub, data⟩ :: r.1, r.2)

/-- Embedding of `build_email(cfg, comp)`: renders headers and body from the templates and
identity, then attaches the configured files; returns the message and the
missing-attachment warnings it printed. -/
def build_email (cfg : Config) (comp : Company) (w : World) :
    EmailMessage × List String :=
  let ident := cfg.identity
  let ec := cfg.email
  let fromHeader :=
    pyOrStr ec.from_name (ident.first_name ++ " " ++ ident.last_name)
      ++ " <" ++ ec.username ++ ">"
  let subject := pyFormat (ec.subject.getD "Candidature") [("company", comp.company)]
  let contact_name_or_team :=
    if pyTruthyOpt comp.contact_name then (optStr comp.contact_name).trim
    else "l\x27équipe RH"
  let body := pyFormat ec.body_template
    [("first_name", ident.first_name), ("last_name", ident.last_name),
     ("email", ident.email), ("phone", ident.phone),
     ("portfolio_url", ident.portfolio_url), ("linkedin_url", ident.linkedin_url),
     ("company", comp.company), ("contact_name", optStr comp.contact_name),
     ("contact_name_or_team", contact_name_or_team),
     ("intro_note", pyOrStr comp.intro_note "mon projet actuel")]
  let ar := buildAttachments cfg w.fs ec.attachments
  (⟨fromHeader, optStr comp.contact_email, subject, body, ar.1⟩, ar.2)

/-- Deterministic serialization of an assembled message (headers, body, then
each attachment in order). -/
def serializeMessage (m : EmailMessage) : String :=
  "From: " ++ m.fromHeader ++ "\nTo: " ++ m.toAddr ++ "\nSubject: " ++ m.subject
    ++ "\n\n" ++ m.body ++ "\n"
    ++ String.join (m.attachments.map (fun a =>
        "Content-Type: " ++ a.maintype ++ "/" ++ a.subtype
          ++ "; filename=" ++ a.filename ++ "\n" ++ a.data ++ "\n"))

/-! ## Form Dispatcher (`scripts/forms.py`, identical body in
`scripts/auto_apply_script.py` where `PLAYWRIGHT_OK` is defined) -/

/-- Oracle for the Playwright page after `page.goto(comp.apply_url)`:
how many elements each selector matches, whether the library call on a
matched element raises, and the page HTML (`none` when `page.content()`
raises).  The page is treated as fixed for the duration of the visit. -/
structure Page where
  count : String → Nat
  fillRaises : String → Bool
  clickRaises : String → Bool
  uploadRaises : String → Bool
  content : Option String

/-- One field-population loop (`# Name`, `# Email`, `# Phone`, `# Message`):
walk the selector list; a selector that matches at least one element and
whose `fill` does not raise fills the field and breaks; a raising `fill` is
swallowed and the loop continues.  Returns the selector that filled the
field (if any) and the list of selectors attempted, in order. -/
def fillField (page : Page) : List String → Option String × List String
  | [] => (none, [])
  | sel :: rest =>
    if page.count sel > 0 then
      if page.fillRaises sel then
        let r := fillField page rest
        (r.1, sel :: r.2)
      else (some sel, [sel])
    else
      let r := fillField page rest
      (r.1, sel :: r.2)

/-- The selector loop inside `try_upload`: true when some selector matches an
element and `set_input_files` on it does not raise (a raising call is
swallowed and the loop continues). -/
def uploadSelLoop (page : Page) : List String → Bool
  | [] => false
  | sel :: rest =>
    if page.count sel > 0 && !page.uploadRaises sel then true
    else uploadSelLoop page rest

/-- Embedding of `try_upload(group_key, file_key)`: false when the configured file does
not exist, otherwise the result of the selector loop.  `fexists` is the
filesystem oracle on the path read from `cfg.files`. -/
def try_upload (cfg : Config) (page : Page) (fexists : String → Bool)
    (groupSels : List String) (fileKey : String) : Bool :=
  let fpath := cfg.files fileKey
  if !fexists fpath then false
  else uploadSelLoop page groupSels

/-- The submit loop: click the first selector whose click does not raise;
`submitted` records whether any click succeeded. -/
def clickFirst (page : Page) : List String → Bool
  | [] => false
  | sel :: rest => if !page.clickRaises sel then true else clickFirst page rest

/-- The fixed multilingual success keywords scanned for in the page text. -/
def success_texts : List String :=
  ["merci", "thank you", "reçu", "received", "envoyée", "submitted", "bien reçu"]

/-- Embedding of `fill_form_and_submit(cfg, comp)` after the page has been navigated:
dismisses cookie banners best-effort (no modeled page effect), fills the four
logical fields, attempts the three uploads, clicks a submit control, applies
the heuristic success check to the lower-cased page content, and returns the
composite outcome string.  `playwright_ok` is the `PLAYWRIGHT_OK` flag the
monolithic variant defines at import time. -/
def fill_form_and_submit (playwright_ok : Bool) (cfg : Config) (comp : Company)
    (page : Page) (fexists : String → Bool) : String :=
  if !playwright_ok then "Playwright not installed"
  else
    let sels := cfg.forms.selectors
    let ident := cfg.identity
    let _cookie := clickFirst page
      ["text=Accepter", "text=Tout accepter", "text=OK", "text=D\x27accord"]
    let _nameVal := ident.first_name ++ " " ++ ident.last_name
    let _emailVal := ident.email
    let _phoneVal := ident.phone
    let _name := fillField page sels.name
    let _email := fillField page sels.email
    let _phone := fillField page sels.phone
    let _msgBody :=
      cfg.forms.message_template ++
        (if pyTruthyOpt comp.intro_note then "\n\nFocus: " ++ optStr comp.intro_note else "")
    let _message := fillField page sels.message
    let cv_ok := try_upload cfg page fexists sels.cv_upload "cv"
    let letter_ok := try_upload cfg page fexists sels.letter_upload "cover_letter"
    let flyer_ok := try_upload cfg page fexists sels.flyer_upload "simplon_flyer"
    let submitted := clickFirst page sels.submit
    let outcome0 := if submitted then "submitted" else "clicked_failed"
    let outcome :=
      match page.content with
      | none => outcome0
      | some c =>
        if success_texts.any (fun t => strContains (pyLower c) t) then "success_detected"
        else outcome0
    let cvs := pyBool cv_ok
    let ls := pyBool letter_ok
    let fs := pyBool flyer_ok
    outcome ++ "; uploads cv=" ++ cvs ++ ", letter=" ++ ls ++ ", flyer=" ++ fs

/-- The global names bound at module scope in `scripts/forms.py` of the
modular package variant: its four imports and the function it defines.
`PLAYWRIGHT_OK` is not among them and is not a Python builtin. -/
def forms_module_globals : List String :=
  ["sync_playwright", "Dict", "Path", "Company", "fill_form_and_submit"]

/-- The message of the `NameError` raised when `PLAYWRIGHT_OK` fails to
resolve. -/
def playwright_name_error : String :=
  "name \x27PLAYWRIGHT_OK\x27 is not defined"

/-- Embedding of `fill_form_and_submit` as imported from the modular `scripts/forms.py`:
its first statement reads the global `PLAYWRIGHT_OK`; if that name resolved
in the module scope the body would run with the resolved value
(`resolved_ok`), otherwise the lookup raises `NameError`. -/
def fill_form_and_submit_modular (cfg : Config) (comp : Company) (page : Page)
    (fexists : String → Bool) (resolved_ok : Bool) : Except String String :=
  if forms_module_globals.contains "PLAYWRIGHT_OK" then
    Except.ok (fill_form_and_submit resolved_ok cfg comp page fexists)
  else
    Except.error playwright_name_error

/-! ## Per-company processing (`scripts/processor.py`) -/

/-- What one `process_company` call did: the log rows it appended (in
order), and how many times it invoked the `build_email`/`send_email` pair
and `fill_form_and_submit`. -/
structure ProcResult where
  log : List LogEntry
  email_send_calls : Nat
  form_calls : Nat
deriving Repr, DecidableEq

/-- Test `mode in ("email", "both")`. -/
def modeIncludesEmail (mode : String) : Bool :=
  mode == "email" || mode == "both"

/-- Test `mode in ("form", "both")`. -/
def modeIncludesForm (mode : String) : Bool :=
  mode == "form" || mode == "both"

/-- Embedding of `process_company(cfg, comp, dry_run=..., mode=...)`.  `ts` is the
timestamp taken at entry; `sendResult` is the outcome of the
`build_email`+`send_email` pair (exception text on failure) and `formResult`
the outcome of `fill_form_and_submit`, each consulted only on the non-dry
path of its applicable channel. -/
def process_company (cfg : Config) (comp : Company) (dry_run : Bool)
    (mode : String) (ts : String) (sendResult : Except String Unit)
    (formResult : Except String String) : ProcResult :=
  let emailPart : List LogEntry × Nat :=
    if modeIncludesEmail mode && pyTruthyOpt comp.contact_email then
      if dry_run then
        ([⟨ts, comp.company, "email", optStr comp.contact_email, "dry_run", ""⟩], 0)
      else
        match sendResult with
        | Except.ok _ =>
          ([⟨ts, comp.company, "email", optStr comp.contact_email, "sent", ""⟩], 1)
        | Except.error e =>
          ([⟨ts, comp.company, "email", optStr comp.contact_email, "error", e⟩], 1)
    else ([], 0)
  let formPart : List LogEntry × Nat :=
    if modeIncludesForm mode && pyTruthyOpt comp.apply_url && cfg.forms.enabled then
      if dry_run then
        ([⟨ts, comp.company, "form", optStr comp.apply_url, "dry_run", ""⟩], 0)
      else
        match formResult with
        | Except.ok details =>
          let status :=
            if pyStartsWith details "success" || pyStartsWith details "submitted" then "ok"
            else "check"
          ([⟨ts, comp.company, "form", optStr comp.apply_url, status, details⟩], 1)
        | Except.error e =>
          ([⟨ts, comp.company, "form", optStr comp.apply_url, "error", e⟩], 1)
    else ([], 0)
  ⟨emailPart.1 ++ formPart.1, emailPart.2, formPart.2⟩

/-! ## Run Orchestrator (`scripts/__main__.py`, function `main`) -/

/-- What a run did: the records `process_company` was invoked on, paired
with the value of `count` at the time (used to index the per-record
oracles), the concatenated log rows, and how many `random_delay` calls were
made. -/
structure RunResult where
  processed : List (Nat × Company)
  log : List LogEntry
  delays : Nat
deriving Repr

/-- The record-eligibility test of the main loop: non-empty company name and
at least one of `contact_email`, `apply_url` truthy. -/
def eligibleB (c : Company) : Bool :=
  !c.company.isEmpty && (pyTruthyOpt c.contact_email || pyTruthyOpt c.apply_url)

/-- The `for comp in companies` loop of `main`, after the optional
truncation: skip ineligible records, otherwise call `process_company`,
increment `count`, break when the (truthy) limit is reached, else delay and
continue.  `ts`, `eo`, `fo` supply the per-iteration timestamp and oracle
values, indexed by `count`. -/
def mainLoop (cfg : Config) (dry_run : Bool) (mode : String) (limit : Option Int)
    (ts : Nat → String) (eo : Nat → Except String Unit)
    (fo : Nat → Except String String) : List Company → Nat → RunResult
  | [], _ => ⟨[], [], 0⟩
  | comp :: rest, count =>
    if comp.company.isEmpty then
      mainLoop cfg dry_run mode limit ts eo fo rest count
    else if !pyTruthyOpt comp.contact_email && !pyTruthyOpt comp.apply_url then
      mainLoop cfg dry_run mode limit ts eo fo rest count
    else
      let r := process_company cfg comp dry_run mode (ts count) (eo count) (fo count)
      if pyIntTruthy limit && decide (limit.getD 0 ≤ ((count + 1 : Nat) : Int)) then
        ⟨[(count, comp)], r.log, 0⟩
      else
        let r2 := mainLoop cfg dry_run mode limit ts eo fo rest (count + 1)
        ⟨(count, comp) :: r2.processed, r.log ++ r2.log, r2.delays + 1⟩

/-- Embedding of `main` after argument parsing: truncate the list when the limit is
truthy (`companies[:limit]`), then run the loop with `count = 0`. -/
def main_run (cfg : Config) (companies : List Company) (dry_run : Bool)
    (mode : String) (limit : Option Int) (ts : Nat → String)
    (eo : Nat → Except String Unit) (fo : Nat → Except String String) : RunResult :=
  let cs := if pyIntTruthy limit then pySliceTo (limit.getD 0) companies else companies
  mainLoop cfg dry_run mode limit ts eo fo cs 0

/-! ## Sample concrete inputs used by witnesses -/

/-- An empty selector configuration (field values are irrelevant to the
processor-level claims). -/
def sampleSelectors : FormSelectors :=
  ⟨[], [], [], [], [], [], [], []⟩

/-- A small concrete configuration. -/
def sampleConfig : Config where
  identity := ⟨"Ada", "Lovelace", "ada@example.com", "+33 6 00 00 00 00", "", ""⟩
  files := fun _ => ""
  email := ⟨"ada@example.com", none, none, "", []⟩
  forms := ⟨true, "", sampleSelectors⟩
  logging_output_csv := "./logs/applications_log.csv"

/-- The end-to-end sample row of the spec: company `Acme` with a contact email
and no apply URL. -/
def sampleCompany : Company :=
  ⟨"Acme", some "hr@acme.test", none, none, some "widgets"⟩

/-- A record reachable only through the form channel. -/
def sampleFormCompany : Company :=
  ⟨"Startup XYZ", none, some "https://startup.xyz/jobs/stage-dev", none, none⟩

/-! ## Claims about `process_company` -/

/-- Claim C1: In dry-run mode, for every eligible record, `process_company`
appends exactly one `"dry_run"` log entry per channel applicable under the
selected mode, every appended entry has status `"dry_run"`, and neither the
`build_email`/`send_email` pair nor `fill_form_and_submit` is invoked. -/
theorem claim_C1_dry_run (cfg : Config) (comp : Company) (mode : String)
    (ts : String) (so : Except String Unit) (fo : Except String String)
    (_helig : eligibleB comp = true) :
    (process_company cfg comp true mode ts so fo).email_send_calls = 0
    ∧ (process_company cfg comp true mode ts so fo).form_calls = 0
    ∧ ((modeIncludesEmail mode && pyTruthyOpt comp.contact_email) = true →
        (process_company cfg comp true mode ts so fo).log.filter
            (fun e => e.channel == "email") =
          [⟨ts, comp.company, "email", optStr comp.contact_email, "dry_run", ""⟩])
    ∧ ((modeIncludesForm mode && pyTruthyOpt comp.apply_url && cfg.forms.enabled) = true →
        (process_company cfg comp true mode ts so fo).log.filter
            (fun e => e.channel == "form") =
          [⟨ts, comp.company, "form", optStr comp.apply_url, "dry_run", ""⟩])
    ∧ (∀ e ∈ (process_company cfg comp true mode ts so fo).log, e.status = "dry_run") := by
  cases hE : (modeIncludesEmail mode && pyTruthyOpt comp.contact_email) <;>
  cases hF : (modeIncludesForm mode && pyTruthyOpt comp.apply_url && cfg.forms.enabled) <;>
  simp [process_company, hE, hF, List.filter]

/-- Witness for C1: Concrete dry-run processing of the sample record in
email mode. -/
theorem claim_C1_dry_run_witness :
    (process_company sampleConfig sampleCompany true "email" "t"
        (Except.ok ()) (Except.error "unused")).log.filter
        (fun e => e.channel == "email") =
      [⟨"t", sampleCompany.company, "email", optStr sampleCompany.contact_email,
        "dry_run", ""⟩] :=
  (claim_C1_dry_run sampleConfig sampleCompany "email" "t" (Except.ok ())
    (Except.error "unused") (by decide)).2.2.1 (by decide)

/-- Claim C3: In non-dry-run form mode with `apply_url` present and forms
enabled, exactly one form-channel log entry is appended:
when `fill_form_and_submit` returns a string, the status is `"ok"` exactly
when the string begins with `"success"` or `"submitted"` and `"check"`
otherwise, with the string as details; when it raises, the status is
`"error"` with the exception text as details. -/
theorem claim_C3_form_status (cfg : Config) (comp : Company) (mode : String)
    (ts : String) (so : Except String Unit) (fo : Except String String)
    (hm : modeIncludesForm mode = true)
    (hu : pyTruthyOpt comp.apply_url = true)
    (he : cfg.forms.enabled = true) :
    (process_company cfg comp false mode ts so fo).form_calls = 1
    ∧ (process_company cfg comp false mode ts so fo).log.filter
        (fun e => e.channel == "form") =
      [⟨ts, comp.company, "form", optStr comp.apply_url,
        (match fo with
         | Except.ok d =>
           if pyStartsWith d "success" || pyStartsWith d "submitted" then "ok" else "check"
         | Except.error _ => "error"),
        (match fo with
         | Except.ok d => d
         | Except.error e => e)⟩] := by
  cases hE : (modeIncludesEmail mode && pyTruthyOpt comp.contact_email) <;>
  cases so <;> cases fo <;>
  simp [process_company, hE, hm, hu, he, List.filter]

/-- Witness for C3: Concrete non-dry form processing of the sample form
record, the dispatcher returning a `"submitted"` string. -/
theorem claim_C3_form_status_witness :
    (process_company sampleConfig sampleFormCompany false "form" "t"
        (Except.ok ())
        (Except.ok "submitted; uploads cv=False, letter=False, flyer=False")).form_calls = 1
    ∧ (process_company sampleConfig sampleFormCompany false "form" "t"
        (Except.ok ())
        (Except.ok "submitted; uploads cv=False, letter=False, flyer=False")).log.filter
        (fun e => e.channel == "form") =
      [⟨"t", sampleFormCompany.company, "form", optStr sampleFormCompany.apply_url,
        "ok", "submitted; uploads cv=False, letter=False, flyer=False"⟩] := by
  have h := claim_C3_form_status sampleConfig sampleFormCompany "form" "t" (Except.ok ())
    (Except.ok "submitted; uploads cv=False, letter=False, flyer=False")
    (by decide) (by decide) (by decide)
  exact ⟨h.1, h.2.trans (by decide)⟩

/-! ## Lemmas about the main loop -/

/-- Every record the main loop invokes `process_company` on passes the
eligibility guards. -/
theorem mainLoop_processed_eligible (cfg : Config) (dry : Bool) (mode : String)
    (limit : Option Int) (ts : Nat → String) (eo : Nat → Except String Unit)
    (fo : Nat → Except String String) :
    ∀ (cs : List Company) (count : Nat) (p : Nat × Company),
      p ∈ (mainLoop cfg dry mode limit ts eo fo cs count).processed →
      eligibleB p.2 = true := by
  intro cs
  induction cs with
  | nil => intro count p hp; simp [mainLoop] at hp
  | cons c rest ih =>
    intro count p hp
    rw [mainLoop] at hp
    split at hp
    case isTrue h1 => exact ih _ _ hp
    case isFalse h1 =>
      split at hp
      case isTrue h2 => exact ih _ _ hp
      case isFalse h2 =>
        have hel : eligibleB c = true := by
          cases h3 : c.company.isEmpty <;>
            cases h4 : pyTruthyOpt c.contact_email <;>
              cases h5 : pyTruthyOpt c.apply_url <;>
                simp [eligibleB, h3, h4, h5] <;> simp [h3, h4, h5] at h1 h2
        split at hp
        · simp only [List.mem_singleton] at hp
          rw [hp]
          exact hel
        · simp only [List.mem_cons] at hp
          rcases hp with hp | hp
          · rw [hp]; exact hel
          · exact ih _ _ hp

/-- The log a run appends is exactly the concatenation, over the processed
records in order, of the log rows `process_company` appends for each. -/
theorem mainLoop_log_eq (cfg : Config) (dry : Bool) (mode : String)
    (limit : Option Int) (ts : Nat → String) (eo : Nat → Except String Unit)
    (fo : Nat → Except String String) :
    ∀ (cs : List Company) (count : Nat),
      (mainLoop cfg dry mode limit ts eo fo cs count).log =
        (mainLoop cfg dry mode limit ts eo fo cs count).processed.flatMap
          (fun p => (process_company cfg p.2 dry mode (ts p.1) (eo p.1) (fo p.1)).log) := by
  intro cs
  induction cs with
  | nil => intro count; simp [mainLoop]
  | cons c rest ih =>
    intro count
    rw [mainLoop]
    split
    · exact ih _
    · split
      · exact ih _
      · split
        · simp
        · simp [ih]

/-- The loop never processes more records than it is given. -/
theorem mainLoop_processed_length_le (cfg : Config) (dry : Bool) (mode : String)
    (limit : Option Int) (ts : Nat → String) (eo : Nat → Except String Unit)
    (fo : Nat → Except String String) :
    ∀ (cs : List Company) (count : Nat),
      (mainLoop cfg dry mode limit ts eo fo cs count).processed.length ≤ cs.length := by
  intro cs
  induction cs with
  | nil => intro count; simp [mainLoop]
  | cons c rest ih =>
    intro count
    rw [mainLoop]
    split
    · exact le_trans (ih _) (Nat.le_succ _)
    · split
      · exact le_trans (ih _) (Nat.le_succ _)
      · split
        · simp
        · simpa using Nat.succ_le_succ (ih _)

/-- A falsy limit (absent or zero) never triggers the early break: the loop
behaves as with no limit at all. -/
theorem mainLoop_limit_falsy (cfg : Config) (dry : Bool) (mode : String)
    (limit : Option Int) (ts : Nat → String) (eo : Nat → Except String Unit)
    (fo : Nat → Except String String) (h : pyIntTruthy limit = false) :
    ∀ (cs : List Company) (count : Nat),
      mainLoop cfg dry mode limit ts eo fo cs count =
        mainLoop cfg dry mode none ts eo fo cs count := by
  intro cs
  induction cs with
  | nil => intro count; rfl
  | cons c rest ih =>
    intro count
    rw [mainLoop, mainLoop]
    by_cases h1 : c.company.isEmpty = true
    · simp only [h1, if_true, ite_true]
      exact ih _
    · simp only [h1, if_false, ite_false]
      by_cases h2 : (!pyTruthyOpt c.contact_email && !pyTruthyOpt c.apply_url) = true
      · simp only [h2, if_true, ite_true]
        exact ih _
      · have hnone : pyIntTruthy none = false := rfl
        simp only [h2, if_false, ite_false, h, hnone, Bool.false_and]
        simp only [ih]

/-- With no (truthy) limit, the loop processes exactly the eligible records,
in order. -/
theorem mainLoop_none_processed (cfg : Config) (dry : Bool) (mode : String)
    (ts : Nat → String) (eo : Nat → Except String Unit)
    (fo : Nat → Except String String) :
    ∀ (cs : List Company) (count : Nat),
      ((mainLoop cfg dry mode none ts eo fo cs count).processed).map Prod.snd =
        cs.filter eligibleB := by
  intro cs
  induction cs with
  | nil => intro count; simp [mainLoop]
  | cons c rest ih =>
    intro count
    rw [mainLoop]
    by_cases h1 : c.company.isEmpty = true
    · have hel : eligibleB c = false := by simp [eligibleB, h1]
      simp only [h1, if_true, ite_true, List.filter_cons, hel]
      simpa using ih _
    · by_cases h2 : (!pyTruthyOpt c.contact_email && !pyTruthyOpt c.apply_url) = true
      · have hel : eligibleB c = false := by
          simp only [Bool.and_eq_true, Bool.not_eq_true'] at h2
          simp [eligibleB, h2.1, h2.2]
        simp only [h1, if_false, ite_false, h2, if_true, ite_true, List.filter_cons, hel]
        simpa using ih _
      · have hel : eligibleB c = true := by
          cases h3 : c.company.isEmpty <;>
            cases h4 : pyTruthyOpt c.contact_email <;>
              cases h5 : pyTruthyOpt c.apply_url <;>
                simp [eligibleB, h3, h4, h5] <;> simp [h3, h4, h5] at h1 h2
        simp only [h1, if_false, ite_false, h2, pyIntTruthy, Bool.false_and,
          List.filter_cons, hel, if_true, ite_true, List.map_cons]
        simpa using ih _

/-! ## Claims about the orchestrator -/

/-- Claim C2: A record with an empty company name, or with neither
`contact_email` nor `apply_url`, is never handed to `process_company`,
whatever the mode, dry-run setting and limit; and the log of the run is exactly
the concatenation of the rows produced for the processed records, so such a
record contributes zero log entries. -/
theorem claim_C2_skip_ineligible (cfg : Config) (companies : List Company)
    (dry : Bool) (mode : String) (limit : Option Int) (ts : Nat → String)
    (eo : Nat → Except String Unit) (fo : Nat → Except String String)
    (c : Company)
    (hc : c.company.isEmpty = true ∨
      (pyTruthyOpt c.contact_email = false ∧ pyTruthyOpt c.apply_url = false)) :
    (∀ i, (i, c) ∉ (main_run cfg companies dry mode limit ts eo fo).processed)
    ∧ (main_run cfg companies dry mode limit ts eo fo).log =
        (main_run cfg companies dry mode limit ts eo fo).processed.flatMap
          (fun p => (process_company cfg p.2 dry mode (ts p.1) (eo p.1) (fo p.1)).log) := by
  constructor
  · intro i hmem
    have h := mainLoop_processed_eligible cfg dry mode limit ts eo fo _ _ _ hmem
    rcases hc with h1 | ⟨h2, h3⟩
    · simp [eligibleB, h1] at h
    · simp [eligibleB, h2, h3] at h
  · exact mainLoop_log_eq cfg dry mode limit ts eo fo _ _

/-- Witness for C2: A record with an empty company name is not processed in
a concrete run that contains it. -/
theorem claim_C2_skip_ineligible_witness :
    (0, (⟨"", some "hr@x.test", none, none, none⟩ : Company)) ∉
      (main_run sampleConfig [⟨"", some "hr@x.test", none, none, none⟩, sampleCompany]
        true "both" none (fun _ => "t") (fun _ => Except.ok ())
        (fun _ => Except.error "e")).processed :=
  (claim_C2_skip_ineligible sampleConfig
    [⟨"", some "hr@x.test", none, none, none⟩, sampleCompany] true "both" none
    (fun _ => "t") (fun _ => Except.ok ()) (fun _ => Except.error "e")
    ⟨"", some "hr@x.test", none, none, none⟩ (Or.inl (by decide))).1 0

/-- Claim C8: With a limit of 1 and two eligible records, only the first is
processed and no inter-record delay runs; in general, once a positive limit
is set, at most `limit` records are processed. -/
theorem claim_C8_limit_one (cfg : Config) (c1 c2 : Company) (dry : Bool)
    (mode : String) (ts : Nat → String) (eo : Nat → Except String Unit)
    (fo : Nat → Except String String) (companies : List Company)
    (limit : Option Int) (n : Int)
    (h1 : eligibleB c1 = true) (_h2 : eligibleB c2 = true)
    (hl : limit = some n) (hn : 0 < n) :
    ((main_run cfg [c1, c2] dry mode (some 1) ts eo fo).processed = [(0, c1)]
      ∧ (main_run cfg [c1, c2] dry mode (some 1) ts eo fo).delays = 0)
    ∧ ((main_run cfg companies dry mode limit ts eo fo).processed.length : Int) ≤ n := by
  constructor
  · have hcs : (if pyIntTruthy (some 1) then pySliceTo ((some (1:Int)).getD 0) [c1, c2]
        else [c1, c2]) = [c1] := by
      simp [pyIntTruthy, pySliceTo]
    rw [main_run]
    simp only [hcs]
    rw [mainLoop]
    cases h3 : c1.company.isEmpty <;>
      cases h4 : pyTruthyOpt c1.contact_email <;>
        cases h5 : pyTruthyOpt c1.apply_url <;>
          simp [mainLoop, h3, h4, h5, pyIntTruthy] <;>
            simp [eligibleB, h3, h4, h5] at h1
  · subst hl
    have ht : pyIntTruthy (some n) = true := by
      simp only [pyIntTruthy, bne_iff_ne, ne_eq, decide_eq_true_eq]
      omega
    have hlen := mainLoop_processed_length_le cfg dry mode (some n) ts eo fo
      (pySliceTo n companies) 0
    have hsl : (pySliceTo n companies).length ≤ n.toNat := by
      simp only [pySliceTo, hn.le, if_true, ite_true]
      simp
    rw [main_run]
    simp only [ht, if_true, ite_true, Option.getD_some]
    omega

/-- Witness for C8: A concrete run with limit 1 over two eligible records. -/
theorem claim_C8_limit_one_witness :
    (main_run sampleConfig [sampleCompany, sampleFormCompany] true "both" (some 1)
        (fun _ => "t") (fun _ => Except.ok ()) (fun _ => Except.error "e")).processed =
      [(0, sampleCompany)]
    ∧ (main_run sampleConfig [sampleCompany, sampleFormCompany] true "both" (some 1)
        (fun _ => "t") (fun _ => Except.ok ()) (fun _ => Except.error "e")).delays = 0 :=
  (claim_C8_limit_one sampleConfig sampleCompany sampleFormCompany true "both"
    (fun _ => "t") (fun _ => Except.ok ()) (fun _ => Except.error "e")
    [] (some 1) 1 (by decide) (by decide) rfl (by decide)).1

/-- Claim C10: A limit of 0 is treated as no limit: the run with limit 0 is
identical to the run with no limit, and it processes exactly the eligible
records of the whole input list. -/
theorem claim_C10_zero_limit (cfg : Config) (companies : List Company)
    (dry : Bool) (mode : String) (ts : Nat → String)
    (eo : Nat → Except String Unit) (fo : Nat → Except String String) :
    main_run cfg companies dry mode (some 0) ts eo fo =
      main_run cfg companies dry mode none ts eo fo
    ∧ ((main_run cfg companies dry mode (some 0) ts eo fo).processed).map Prod.snd =
        companies.filter eligibleB := by
  have h0 : pyIntTruthy (some 0) = false := by decide
  have he : main_run cfg companies dry mode (some 0) ts eo fo =
      main_run cfg companies dry mode none ts eo fo := by
    rw [main_run, main_run]
    simp only [h0, pyIntTruthy, if_false, ite_false]
    exact mainLoop_limit_falsy cfg dry mode (some 0) ts eo fo h0 companies 0
  refine ⟨he, ?_⟩
  rw [he, main_run]
  simp only [pyIntTruthy, if_false, ite_false]
  exact mainLoop_none_processed cfg dry mode ts eo fo companies 0

/-! ## Lemmas about the form-fill loops -/

/-- The submit loop clicks successfully exactly when the click on some selector
does not raise. -/
theorem clickFirst_eq_any (page : Page) :
    ∀ sels : List String, clickFirst page sels = sels.any (fun s => !page.clickRaises s) := by
  intro sels
  induction sels with
  | nil => rfl
  | cons a rest ih => cases hc : page.clickRaises a <;> simp [clickFirst, hc, ih]

/-- The upload selector loop succeeds exactly when some selector matches an
element whose `set_input_files` does not raise. -/
theorem uploadSelLoop_eq_any (page : Page) :
    ∀ sels : List String,
      uploadSelLoop page sels =
        sels.any (fun s => decide (0 < page.count s) && !page.uploadRaises s) := by
  intro sels
  induction sels with
  | nil => rfl
  | cons a rest ih =>
    by_cases hc : 0 < page.count a <;> cases hu : page.uploadRaises a <;>
      simp [uploadSelLoop, hc, hu, ih]

/-- Lemma: `try_upload` succeeds exactly when the configured file exists and some
selector in the group matches an input that accepts it. -/
theorem try_upload_eq_any (cfg : Config) (page : Page) (fexists : String → Bool)
    (gsels : List String) (key : String) :
    try_upload cfg page fexists gsels key =
      (fexists (cfg.files key) &&
        gsels.any (fun s => decide (0 < page.count s) && !page.uploadRaises s)) := by
  cases h : fexists (cfg.files key) <;> simp [try_upload, h, uploadSelLoop_eq_any]

/-! ## Claims about the Form Dispatcher -/

/-- Claim C4: Field population walks the configured ordered selector list and
fills via the first selector matching at least one element, attempting
nothing after it; when no selector matches, the field is left unfilled and
no error is raised (the loop just returns).  Stated for pages whose `fill`
calls do not raise. -/
theorem claim_C4_selector_fallback (page : Page)
    (hfill : ∀ s, page.fillRaises s = false) :
    (∀ (pre : List String) (sel : String) (post : List String),
        (∀ s ∈ pre, page.count s = 0) → 0 < page.count sel →
        fillField page (pre ++ sel :: post) = (some sel, pre ++ [sel]))
    ∧ (∀ sels : List String, (∀ s ∈ sels, page.count s = 0) →
        fillField page sels = (none, sels)) := by
  constructor
  · intro pre
    induction pre with
    | nil =>
      intro sel post _ hsel
      simp [fillField, hsel, hfill sel]
    | cons a pre ih =>
      intro sel post h0 hsel
      have ha : page.count a = 0 := h0 a (List.mem_cons_self a pre)
      have hrec := ih sel post (fun s hs => h0 s (List.mem_cons_of_mem a hs)) hsel
      simp [fillField, ha, hrec]
  · intro sels
    induction sels with
    | nil => intro _; rfl
    | cons a rest ih =>
      intro h0
      have ha : page.count a = 0 := h0 a (List.mem_cons_self a rest)
      have hrec := ih (fun s hs => h0 s (List.mem_cons_of_mem a hs))
      simp [fillField, ha, hrec]

/-- A concrete page on which only the selector `"c"` matches, and no library
call raises. -/
def samplePage : Page where
  count := fun s => if s == "c" then 1 else 0
  fillRaises := fun _ => false
  clickRaises := fun _ => false
  uploadRaises := fun _ => false
  content := none

/-- Witness for C4: With three configured selectors of which only the third
matches, the fill succeeds via the third and attempts nothing after it. -/
theorem claim_C4_selector_fallback_witness :
    fillField samplePage (["a", "b"] ++ "c" :: []) = (some "c", ["a", "b"] ++ ["c"]) :=
  (claim_C4_selector_fallback samplePage (fun _ => rfl)).1 ["a", "b"] "c" []
    (by decide) (by decide)

/-- Claim C5: When `fill_form_and_submit` runs its body after navigation, it
returns exactly `"<outcome>; uploads cv=<b>, letter=<b>, flyer=<b>"`:
the outcome is `"submitted"` when some submit-selector click succeeded,
`"clicked_failed"` when none did, and `"success_detected"` when the
lower-cased page text contains one of the fixed success keywords; each
upload flag is `True` exactly when the configured file existed and some
selector of that group matched an input that accepted it. -/
theorem claim_C5_return_format (cfg : Config) (comp : Company) (page : Page)
    (fexists : String → Bool) :
    fill_form_and_submit true cfg comp page fexists =
      (let submitted := (cfg.forms.selectors.submit).any (fun s => !page.clickRaises s)
       let detected := match page.content with
         | none => false
         | some c => success_texts.any (fun t => strContains (pyLower c) t)
       let outcome :=
         if detected then "success_detected"
         else if submitted then "submitted" else "clicked_failed"
       let upOK := fun (gsels : List String) (key : String) =>
         fexists (cfg.files key) &&
           gsels.any (fun s => decide (0 < page.count s) && !page.uploadRaises s)
       outcome ++ "; uploads cv=" ++ pyBool (upOK cfg.forms.selectors.cv_upload "cv")
         ++ ", letter=" ++ pyBool (upOK cfg.forms.selectors.letter_upload "cover_letter")
         ++ ", flyer=" ++ pyBool (upOK cfg.forms.selectors.flyer_upload "simplon_flyer")) := by
  simp only [fill_form_and_submit, try_upload_eq_any, clickFirst_eq_any]
  cases hc : page.content with
  | none => simp
  | some c =>
    by_cases hd : (success_texts.any (fun t => strContains (pyLower c) t)) = true <;>
      simp [hd]

/-! ## Claims about the Email Dispatcher -/

/-- Claim C6: Rendering is deterministic: two worlds that agree on the
filesystem (whatever their clock and randomness) yield byte-identical
serialized messages from `build_email`. -/
theorem claim_C6_render_deterministic (cfg : Config) (comp : Company)
    (w1 w2 : World) (hfs : w1.fs = w2.fs) :
    serializeMessage (build_email cfg comp w1).1 =
      serializeMessage (build_email cfg comp w2).1 := by
  unfold build_email
  rw [hfs]

/-- A filesystem with no files. -/
def emptyFS : String → Option String := fun _ => none

/-- Witness for C6: Two concrete worlds differing in clock and randomness
but with the same (empty) filesystem serialize identically. -/
theorem claim_C6_render_deterministic_witness :
    serializeMessage (build_email sampleConfig sampleCompany
        ⟨emptyFS, fun _ => 0, "2025-01-01T00:00:00"⟩).1 =
      serializeMessage (build_email sampleConfig sampleCompany
        ⟨emptyFS, fun _ => 1, "2026-02-02T00:00:00"⟩).1 :=
  claim_C6_render_deterministic sampleConfig sampleCompany
    ⟨emptyFS, fun _ => 0, "2025-01-01T00:00:00"⟩
    ⟨emptyFS, fun _ => 1, "2026-02-02T00:00:00"⟩ rfl

/-- The attachment `build_email` constructs for a configured key whose file
exists. -/
def mkAttachment (cfg : Config) (w : World) (key : String) : Attachment :=
  ⟨pathName (cfg.files key), "application",
   (if pyLower (pathSuffix (cfg.files key)) == ".pdf" then "pdf" else "octet-stream"),
   (w.fs (cfg.files key)).getD ""⟩

/-- The attachment loop, in closed form: existing files are attached in
configured order, missing ones are warned about and skipped. -/
theorem buildAttachments_eq (cfg : Config) (fs : String → Option String) :
    ∀ keys : List String,
      buildAttachments cfg fs keys =
        ((keys.filter (fun k => (fs (cfg.files k)).isSome)).map (fun k =>
          (⟨pathName (cfg.files k), "application",
            (if pyLower (pathSuffix (cfg.files k)) == ".pdf" then "pdf"
             else "octet-stream"),
            (fs (cfg.files k)).getD ""⟩ : Attachment)),
         (keys.filter (fun k => (fs (cfg.files k)).isNone)).map (fun k =>
           "[!] Attachment missing: " ++ cfg.files k)) := by
  intro keys
  induction keys with
  | nil => rfl
  | cons k rest ih =>
    cases h : fs (cfg.files k) with
    | none => simp [buildAttachments, h, ih, List.filter_cons]
    | some d => simp [buildAttachments, h, ih, List.filter_cons]

/-- Claim C7: `build_email` always completes; a configured attachment whose
file is missing is omitted from the message and a warning about it is
emitted, while all existing listed files are attached in configured order. -/
theorem claim_C7_missing_attachment (cfg : Config) (comp : Company) (w : World) :
    (build_email cfg comp w).1.attachments =
      (cfg.email.attachments.filter (fun k => (w.fs (cfg.files k)).isSome)).map
        (fun k => mkAttachment cfg w k)
    ∧ (build_email cfg comp w).2 =
      (cfg.email.attachments.filter (fun k => (w.fs (cfg.files k)).isNone)).map
        (fun k => "[!] Attachment missing: " ++ cfg.files k) := by
  constructor <;> simp [build_email, buildAttachments_eq, mkAttachment]

/-! ## Claim about the modular `forms.py` name error -/

/-- Claim C9: In the modular package variant, `fill_form_and_submit` always
raises `NameError` (the name `PLAYWRIGHT_OK` is bound nowhere in
`scripts/forms.py`), so for a form-applicable record processed without
dry-run the orchestrator logs exactly one form entry with status `"error"`
and the `NameError` text as details. -/
theorem claim_C9_playwright_name_error (cfg : Config) (comp : Company)
    (page : Page) (fexists : String → Bool) (resolved_ok : Bool) (mode : String)
    (ts : String) (so : Except String Unit)
    (hm : modeIncludesForm mode = true)
    (hu : pyTruthyOpt comp.apply_url = true)
    (he : cfg.forms.enabled = true) :
    fill_form_and_submit_modular cfg comp page fexists resolved_ok =
      Except.error playwright_name_error
    ∧ (process_company cfg comp false mode ts so
        (fill_form_and_submit_modular cfg comp page fexists resolved_ok)).log.filter
        (fun e => e.channel == "form") =
      [⟨ts, comp.company, "form", optStr comp.apply_url, "error",
        playwright_name_error⟩] := by
  have hmem : forms_module_globals.contains "PLAYWRIGHT_OK" = false := by decide
  have hmod : fill_form_and_submit_modular cfg comp page fexists resolved_ok =
      Except.error playwright_name_error := by
    simp [fill_form_and_submit_modular, hmem]
    decide
  refine ⟨hmod, ?_⟩
  rw [hmod]
  cases hE : (modeIncludesEmail mode && pyTruthyOpt comp.contact_email) <;>
    cases so <;>
      simp [process_company, hE, hm, hu, he, List.filter]

/-- Witness for C9: Concrete non-dry form processing through the modular
`forms.py` logs an error row. -/
theorem claim_C9_playwright_name_error_witness :
    fill_form_and_submit_modular sampleConfig sampleFormCompany samplePage
        (fun _ => false) true =
      Except.error playwright_name_error
    ∧ (process_company sampleConfig sampleFormCompany false "form" "t" (Except.ok ())
        (fill_form_and_submit_modular sampleConfig sampleFormCompany samplePage
          (fun _ => false) true)).log.filter
        (fun e => e.channel == "form") =
      [⟨"t", sampleFormCompany.company, "form", optStr sampleFormCompany.apply_url,
        "error", playwright_name_error⟩] :=
  claim_C9_playwright_name_error sampleConfig sampleFormCompany samplePage
    (fun _ => false) true "form" "t" (Except.ok ())
    (by decide) (by decide) (by decide)

end CVMailer
